import Mathlib

/-!
Shallow embedding of the my-saas-app repository: an Express backend over a
`todos` table (src/backend/server.js), a Next.js API proxy that bridges the
browser session cookie to a bearer header
(src/frontend/src/pages/api/proxy/[...slug].ts), and the OAuth callback
handler (src/frontend/src/pages/api/auth/callback.ts).

The managed database (Supabase) is modelled as a list of rows; the query
builder calls used by the backend (`select`+`eq`+`order`, `insert`,
`delete`+`eq`+`eq`) are embedded with their standard SQL meaning (filter,
sort, append, filtered removal).  `jwt.verify` and the identity provider's
session resolution and code exchange are external collaborators and appear
as oracle parameters.
-/

namespace SaasApp

/-- A row of the `todos` table.  Columns as used by src/backend/server.js:
`id`, `task`, `is_completed`, `created_at`, `user_id`. -/
structure Todo where
  id : Nat
  task : String
  is_completed : Bool
  created_at : Nat
  user_id : String
deriving Repr, DecidableEq

/-- The `todos` table. -/
abbrev Store := List Todo

/-- Insert a todo into a list kept in descending `created_at` order
(embeds the `order("created_at", { ascending: false })` clause). -/
def insertDesc (t : Todo) : List Todo → List Todo
  | [] => [t]
  | x :: xs => if x.created_at ≤ t.created_at then t :: x :: xs else x :: insertDesc t xs

/-- Sort a list of todos by `created_at`, newest first. -/
def sortDesc (l : List Todo) : List Todo :=
  l.foldr insertDesc []

/-- `GET /api/todos` data path (src/backend/server.js lines 98–102):
`select("*").eq("user_id", userId).order("created_at", { ascending: false })`. -/
def listTodos (store : Store) (userId : String) : List Todo :=
  sortDesc (store.filter (fun t => t.user_id = userId))

/-- JS truthiness of `req.body.task` for a string-or-absent value:
`!task` holds when the field is missing or the string is empty
(src/backend/server.js line 116). -/
def taskFalsy : Option String → Bool
  | none => true
  | some s => s = ""

/-- Response bodies the backend and proxy produce. -/
inductive Body where
  | empty
  | jsonTodos (todos : List Todo)
  | jsonTodo (todo : Todo)
  | errorJson (msg : String)
deriving Repr, DecidableEq

/-- An HTTP response: status code and body. -/
structure Response where
  status : Nat
  body : Body
deriving Repr, DecidableEq

/-- JWT claim set as used by the backend (`req.user.sub`). -/
structure Claims where
  sub : String
deriving Repr, DecidableEq

/-- Outcome of `jwt.verify(token, secret, cb)`: either the decoded claims or
an error message. -/
inductive VerifyResult where
  | ok (claims : Claims)
  | error (msg : String)
deriving Repr, DecidableEq

/-- The `authenticateToken` middleware of src/backend/server.js (lines 49–72):
the token is read from the Supabase auth cookie; a missing cookie answers 401
before verification, a failed verification answers 403, and only a verified
token lets the request proceed with the decoded claims. -/
def authenticateToken (verify : String → VerifyResult) (cookieToken : Option String) :
    Except Response Claims :=
  match cookieToken with
  | none => .error ⟨401, .empty⟩
  | some token =>
    match verify token with
    | .error _ => .error ⟨403, .empty⟩
    | .ok claims => .ok claims

/-- A request to the `/api/todos` router. -/
inductive TodosRequest where
  | list
  | create (task : Option String)
  | delete (id : Nat)
deriving Repr, DecidableEq

/-- Result of one backend request: the response sent, the table afterwards,
and whether the handler issued any call to the record store. -/
structure BackendResult where
  response : Response
  store : Store
  storeAccessed : Bool
deriving Repr, DecidableEq

/-- The `/api/todos` router of src/backend/server.js behind
`authenticateToken` (lines 86–153).  `newId` and `now` stand for the
database-assigned primary key and `created_at` timestamp of an insert.
- GET lists the caller's rows newest first;
- POST rejects a falsy `task` with 400 before touching the store, otherwise
  inserts `{ task, is_completed: false, user_id }` and answers 201 with the row;
- DELETE removes the rows matching both `id` and `user_id` and answers 204. -/
def handleTodosRequest (verify : String → VerifyResult) (cookieToken : Option String)
    (req : TodosRequest) (store : Store) (newId now : Nat) : BackendResult :=
  match authenticateToken verify cookieToken with
  | .error resp => ⟨resp, store, false⟩
  | .ok claims =>
    match req with
    | .list => ⟨⟨200, .jsonTodos (listTodos store claims.sub)⟩, store, true⟩
    | .create task =>
      if taskFalsy task then
        ⟨⟨400, .errorJson "Task cannot be empty"⟩, store, false⟩
      else
        let row : Todo := ⟨newId, task.getD "", false, now, claims.sub⟩
        ⟨⟨201, .jsonTodo row⟩, store ++ [row], true⟩
    | .delete id =>
      ⟨⟨204, .empty⟩,
       store.filter (fun t => ¬(t.id = id ∧ t.user_id = claims.sub)), true⟩

/-! ## Session Bridge (proxy), src/frontend/src/pages/api/proxy/[...slug].ts -/

/-- A session as resolved by `supabase.auth.getSession()`; only the
`access_token` field is used by the proxy. -/
structure Session where
  access_token : String
deriving Repr, DecidableEq

/-- One `fetch` issued by the proxy to the backend. -/
structure FetchRequest where
  url : String
  method : String
  contentType : Option String
  authHeader : String
  body : Option String
deriving Repr, DecidableEq

/-- Outcome of the transport-level `fetch`: either the backend answered with
a status and a body text, or the fetch itself threw. -/
inductive FetchOutcome where
  | success (status : Nat) (body : String)
  | failure
deriving Repr, DecidableEq

/-- `Response.ok` of the Fetch API: status in the range 200–299. -/
def responseOk (status : Nat) : Bool :=
  200 ≤ status ∧ status ≤ 299

/-- `Response.statusText` of the Fetch API for the statuses the backend
produces (environment model, not repository code). -/
def statusText : Nat → String
  | 400 => "Bad Request"
  | 401 => "Unauthorized"
  | 403 => "Forbidden"
  | 404 => "Not Found"
  | 500 => "Internal Server Error"
  | _ => ""

/-- Bodies of the proxy's own responses: a JSON error object, the parsed
backend JSON echoed by `res.json(data)`, the backend-error envelope
`\x7b error, details \x7d`, or no body at all (`res.end()`). -/
inductive ProxyBody where
  | empty
  | json (s : String)
  | errorJson (msg : String)
  | backendError (msg details : String)
deriving Repr, DecidableEq

/-- An HTTP response from the proxy to the browser. -/
structure ProxyResponse where
  status : Nat
  body : ProxyBody
deriving Repr, DecidableEq

/-- Result of one proxy invocation: the response to the browser and the list
of fetches issued to the backend. -/
structure ProxyResult where
  response : ProxyResponse
  calls : List FetchRequest
deriving Repr, DecidableEq

/-- The response produced by the proxy's catch block (line 117):
`res.status(500).json({ error: "Proxy request failed" })`. -/
def proxyRequestFailedResponse : ProxyResponse :=
  ⟨500, .errorJson "Proxy request failed"⟩

/-- The one fetch the proxy issues to the backend (lines 68–92): target URL
rebuilt from the wildcard slug, the caller's method, its Content-Type when
present, an `Authorization: Bearer <access_token>` header, and the JSON
body for non-GET/HEAD methods. -/
def proxyFetchRequest (base : String) (session : Session) (method : String)
    (slug : List String) (contentType : Option String) (reqBody : String) : FetchRequest :=
  ⟨base ++ "/" ++ String.intercalate "/" slug, method, contentType,
   "Bearer " ++ session.access_token,
   if method ≠ "GET" ∧ method ≠ "HEAD" then some reqBody else none⟩

/-- The proxy handler (first handler of [...slug].ts, lines 8–119).
`resolveSession` stands for `supabase.auth.getSession()` (`none` covers both
a session error and an absent session), `fetchOracle` for the transport.
- missing backend URL configuration answers 500 and calls nothing;
- no valid session answers 401 `Unauthorized` and calls nothing;
- otherwise the single `proxyFetchRequest` is issued;
- a thrown fetch answers `proxyRequestFailedResponse`;
- a non-ok backend status is forwarded with the envelope
  `error: "Backend Error: <statusText>", details: <backend body>`;
- a backend 204 answers 204 with no body;
- any other ok status is forwarded with the parsed backend body. -/
def proxyHandler (backendUrl : Option String) (resolveSession : Option Session)
    (method : String) (slug : List String) (contentType : Option String)
    (reqBody : String) (fetchOracle : FetchRequest → FetchOutcome) : ProxyResult :=
  match backendUrl with
  | none => ⟨⟨500, .errorJson "Proxy configuration error"⟩, []⟩
  | some base =>
    match resolveSession with
    | none => ⟨⟨401, .errorJson "Unauthorized"⟩, []⟩
    | some session =>
      match fetchOracle (proxyFetchRequest base session method slug contentType reqBody) with
      | .failure =>
        ⟨proxyRequestFailedResponse,
         [proxyFetchRequest base session method slug contentType reqBody]⟩
      | .success status body =>
        if ¬ responseOk status then
          ⟨⟨status, .backendError ("Backend Error: " ++ statusText status) body⟩,
           [proxyFetchRequest base session method slug contentType reqBody]⟩
        else if status = 204 then
          ⟨⟨204, .empty⟩,
           [proxyFetchRequest base session method slug contentType reqBody]⟩
        else
          ⟨⟨status, .json body⟩,
           [proxyFetchRequest base session method slug contentType reqBody]⟩

/-! ## Auth callback handler, src/frontend/src/pages/api/auth/callback.ts -/

/-- A cookie written through `res.setHeader("Set-Cookie", ...)` with the
attributes the handler serializes. -/
structure Cookie where
  name : String
  value : String
  path : String
  sameSite : String
  secure : Bool
deriving Repr, DecidableEq

/-- Outcome of `supabase.auth.exchangeCodeForSession(code)`: on success the
identity provider's library writes the session cookies (as name/value pairs)
through the handler's cookie `set` callback; on failure nothing is written. -/
inductive ExchangeOutcome where
  | ok (cookies : List (String × String))
  | error (msg : String)
deriving Repr, DecidableEq

/-- Observable effect of one callback invocation: status, `Allow` header,
redirect target, cookies written, and how many exchanges were attempted. -/
structure CallbackResult where
  status : Nat
  allowHeader : Option String
  redirectTo : Option String
  cookiesSet : List Cookie
  exchangeAttempts : Nat
deriving Repr, DecidableEq

/-- The `set` cookie handler of the first callback variant (lines 42–66):
whatever options the library asks for, `path`, `sameSite` and `secure` are
forced to `/`, `none` and `true`. -/
def forcedCookie (name value : String) : Cookie :=
  ⟨name, value, "/", "none", true⟩

/-- The redirect path computed on success (lines 29 and 115): the `next`
query parameter, defaulting to `/` when absent or empty (JS `|| "/"`), with
a leading `/` prepended when missing. -/
def callbackRedirectPath (next : Option String) : String :=
  let nextPath :=
    match next with
    | none => "/"
    | some s => if s = "" then "/" else s
  if nextPath.startsWith "/" then nextPath else "/" ++ nextPath

/-- The auth callback handler (first handler of callback.ts, lines 8–120).
`exchange` stands for `supabase.auth.exchangeCodeForSession`.
- a non-GET method answers 405 with `Allow: GET` and does nothing else;
- a missing `code` query parameter redirects to the error page with
  `Authorization+code+missing` and attempts no exchange;
- a failed exchange redirects to the error page with
  `Could+not+authenticate+user`;
- a successful exchange writes the session cookies with the forced
  attributes and redirects to `siteUrl` plus the `next` path (defaulting to
  `/`, with a `/` prepended when absent). -/
def callbackHandler (method : String) (code : Option String) (next : Option String)
    (siteUrl : String) (exchange : String → ExchangeOutcome) : CallbackResult :=
  if method ≠ "GET" then
    ⟨405, some "GET", none, [], 0⟩
  else
    match code with
    | none =>
      ⟨307, none, some (siteUrl ++ "/auth-error?message=Authorization+code+missing"), [], 0⟩
    | some c =>
      match exchange c with
      | .error _ =>
        ⟨307, none, some (siteUrl ++ "/auth-error?message=Could+not+authenticate+user"), [], 1⟩
      | .ok pairs =>
        ⟨307, none, some (siteUrl ++ callbackRedirectPath next),
         pairs.map (fun p => forcedCookie p.1 p.2), 1⟩

/-! ## Lemmas about the newest-first ordering -/

/-- Newest first: every element's `created_at` dominates all later ones. -/
def sortedDesc (l : List Todo) : Prop :=
  l.Pairwise (fun a b => b.created_at ≤ a.created_at)

theorem mem_insertDesc {a t : Todo} {l : List Todo} :
    a ∈ insertDesc t l ↔ a = t ∨ a ∈ l := by
  induction l with
  | nil => simp [insertDesc]
  | cons x xs ih =>
    by_cases h : x.created_at ≤ t.created_at
    · simp [insertDesc, h]
    · simp [insertDesc, h, ih]
      tauto

theorem mem_sortDesc {a : Todo} {l : List Todo} : a ∈ sortDesc l ↔ a ∈ l := by
  induction l with
  | nil => simp [sortDesc]
  | cons x xs ih =>
    show a ∈ insertDesc x (sortDesc xs) ↔ _
    rw [mem_insertDesc]
    simp [ih]

theorem insertDesc_sorted {t : Todo} {l : List Todo} (h : sortedDesc l) :
    sortedDesc (insertDesc t l) := by
  induction l with
  | nil => simp [insertDesc, sortedDesc]
  | cons x xs ih =>
    rw [sortedDesc, List.pairwise_cons] at h
    obtain ⟨hx, hxs⟩ := h
    by_cases hc : x.created_at ≤ t.created_at
    · rw [insertDesc]
      simp only [if_pos hc]
      rw [sortedDesc, List.pairwise_cons]
      refine ⟨?_, ?_⟩
      · intro u hu
        rcases List.mem_cons.mp hu with rfl | hu
        · exact hc
        · exact le_trans (hx u hu) hc
      · rw [List.pairwise_cons]
        exact ⟨hx, hxs⟩
    · rw [insertDesc]
      simp only [if_neg hc]
      rw [sortedDesc, List.pairwise_cons]
      refine ⟨?_, ih hxs⟩
      intro u hu
      rcases mem_insertDesc.mp hu with rfl | hu
      · exact le_of_lt (lt_of_not_le hc)
      · exact hx u hu

theorem sortDesc_sorted (l : List Todo) : sortedDesc (sortDesc l) := by
  induction l with
  | nil => simp [sortDesc, sortedDesc]
  | cons x xs ih => exact insertDesc_sorted ih

theorem sortDesc_head_max {l : List Todo} (h : l ≠ []) :
    ∃ x, (sortDesc l).head? = some x ∧ x ∈ l ∧ ∀ u ∈ l, u.created_at ≤ x.created_at := by
  induction l with
  | nil => exact absurd rfl h
  | cons a l ih =>
    cases l with
    | nil =>
      exact ⟨a, rfl, List.mem_singleton.mpr rfl, by simp⟩
    | cons b m =>
      obtain ⟨x, hx, hmem, hmax⟩ := ih (by simp)
      show ∃ y, (insertDesc a (sortDesc (b :: m))).head? = some y ∧ _
      obtain ⟨rest, hrest⟩ : ∃ rest, sortDesc (b :: m) = x :: rest := by
        cases hs : sortDesc (b :: m) with
        | nil => rw [hs] at hx; exact absurd hx (by simp)
        | cons y ys =>
          rw [hs] at hx
          have hyx : y = x := by simpa using hx
          exact ⟨ys, by simp [hs, hyx]⟩
      rw [hrest]
      by_cases hc : x.created_at ≤ a.created_at
      · refine ⟨a, by simp [insertDesc, hc], by simp, ?_⟩
        intro u hu
        rcases List.mem_cons.mp hu with rfl | hu
        · exact le_refl _
        · exact le_trans (hmax u hu) hc
      · refine ⟨x, by simp [insertDesc, hc], List.mem_cons_of_mem a hmem, ?_⟩
        intro u hu
        rcases List.mem_cons.mp hu with rfl | hu
        · exact le_of_lt (lt_of_not_le hc)
        · exact hmax u hu

theorem filter_filter_of_imp {p q : Todo → Bool} (l : List Todo)
    (h : ∀ a, q a = true → p a = true) :
    (l.filter p).filter q = l.filter q := by
  induction l with
  | nil => rfl
  | cons x xs ih =>
    by_cases hq : q x = true
    · have hp := h x hq
      simp [List.filter_cons, hp, hq, ih]
    · by_cases hp : p x = true
      · simp [List.filter_cons, hp, hq, ih]
      · simp [List.filter_cons, hp, hq, ih]

/-- With a configured backend URL and a resolved session, the proxy issues
exactly the one fetch described by `proxyFetchRequest`. -/
theorem proxyHandler_calls (base : String) (session : Session) (method : String)
    (slug : List String) (ct : Option String) (reqBody : String)
    (fetchOracle : FetchRequest → FetchOutcome) :
    (proxyHandler (some base) (some session) method slug ct reqBody fetchOracle).calls =
      [proxyFetchRequest base session method slug ct reqBody] := by
  cases hfo : fetchOracle (proxyFetchRequest base session method slug ct reqBody) with
  | failure => simp [proxyHandler, hfo]
  | success status body =>
    simp only [proxyHandler, hfo]
    split
    · rfl
    · split <;> rfl

/-! ## Claims -/

/-- C1: with a valid session (a bearer credential whose verification
succeeds with subject `claims.sub`), the list operation answers 200 with
exactly `listTodos store claims.sub`, and every task of that list has
`user_id` equal to the session's subject; no other subject's task appears. -/
theorem listTasks_owner_scoped (verify : String → VerifyResult) (token : String)
    (claims : Claims) (store : Store) (newId now : Nat)
    (hv : verify token = .ok claims) :
    (handleTodosRequest verify (some token) .list store newId now).response =
      ⟨200, .jsonTodos (listTodos store claims.sub)⟩ ∧
    ∀ t ∈ listTodos store claims.sub, t.user_id = claims.sub := by
  constructor
  · simp [handleTodosRequest, authenticateToken, hv]
  · intro t ht
    have hmem : t ∈ store.filter (fun u => u.user_id = claims.sub) := mem_sortDesc.mp ht
    simpa using (List.mem_filter.mp hmem).2

theorem listTasks_owner_scoped_witness :
    (fun _ => VerifyResult.ok ⟨"alice"⟩) "tok" = VerifyResult.ok ⟨"alice"⟩ ∧
    (handleTodosRequest (fun _ => .ok ⟨"alice"⟩) (some "tok") .list
        [⟨1, "a", false, 10, "alice"⟩, ⟨2, "b", false, 20, "bob"⟩] 5 9).response =
      ⟨200, .jsonTodos (listTodos
        [⟨1, "a", false, 10, "alice"⟩, ⟨2, "b", false, 20, "bob"⟩] "alice")⟩ ∧
    ∀ t ∈ listTodos [⟨1, "a", false, 10, "alice"⟩, ⟨2, "b", false, 20, "bob"⟩] "alice",
      t.user_id = "alice" :=
  ⟨rfl,
   listTasks_owner_scoped (fun _ => .ok ⟨"alice"⟩) "tok" ⟨"alice"⟩
     [⟨1, "a", false, 10, "alice"⟩, ⟨2, "b", false, 20, "bob"⟩] 5 9 rfl⟩

/-- C2: a delete issued by an authenticated subject answers 204 regardless
of who owns the targeted id, and the rows of every other subject are left
untouched: the deletion filter pairs `id` with the caller's own subject, so
a foreign id silently matches nothing (no cross-tenant deletion). -/
theorem delete_no_cross_tenant (verify : String → VerifyResult) (token : String)
    (claims : Claims) (other : String) (store : Store) (newId now id : Nat)
    (hv : verify token = .ok claims) (hneq : other ≠ claims.sub) :
    (handleTodosRequest verify (some token) (.delete id) store newId now).response =
      ⟨204, .empty⟩ ∧
    ((handleTodosRequest verify (some token) (.delete id) store newId now).store).filter
        (fun t => t.user_id = other) =
      store.filter (fun t => t.user_id = other) := by
  have hstore : (handleTodosRequest verify (some token) (.delete id) store newId now).store =
      store.filter (fun t => ¬(t.id = id ∧ t.user_id = claims.sub)) := by
    simp [handleTodosRequest, authenticateToken, hv]
  constructor
  · simp [handleTodosRequest, authenticateToken, hv]
  · rw [hstore]
    apply filter_filter_of_imp
    intro a ha
    simp only [decide_eq_true_eq] at ha
    simp only [decide_eq_true_eq]
    rintro ⟨-, hsub⟩
    exact hneq (ha ▸ hsub ▸ rfl)

theorem delete_no_cross_tenant_witness :
    ("bob" ≠ "alice") ∧
    (handleTodosRequest (fun _ => .ok ⟨"alice"⟩) (some "tok") (.delete 2)
        [⟨1, "a", false, 10, "alice"⟩, ⟨2, "b", false, 20, "bob"⟩] 5 9).response =
      ⟨204, .empty⟩ ∧
    ((handleTodosRequest (fun _ => .ok ⟨"alice"⟩) (some "tok") (.delete 2)
        [⟨1, "a", false, 10, "alice"⟩, ⟨2, "b", false, 20, "bob"⟩] 5 9).store).filter
        (fun t => t.user_id = "bob") =
      ([⟨1, "a", false, 10, "alice"⟩, ⟨2, "b", false, 20, "bob"⟩] : Store).filter
        (fun t => t.user_id = "bob") :=
  ⟨by decide,
   delete_no_cross_tenant (fun _ => .ok ⟨"alice"⟩) "tok" ⟨"alice"⟩ "bob"
     [⟨1, "a", false, 10, "alice"⟩, ⟨2, "b", false, 20, "bob"⟩] 5 9 2 rfl (by decide)⟩

/-- C4: with a valid session, a create request whose task text is falsy
(absent or empty) answers 400 `Task cannot be empty`, the table is
unchanged, and the record store is never called. -/
theorem create_empty_text_rejected (verify : String → VerifyResult) (token : String)
    (claims : Claims) (store : Store) (newId now : Nat) (task : Option String)
    (hv : verify token = .ok claims) (hempty : taskFalsy task = true) :
    handleTodosRequest verify (some token) (.create task) store newId now =
      ⟨⟨400, .errorJson "Task cannot be empty"⟩, store, false⟩ := by
  simp [handleTodosRequest, authenticateToken, hv, hempty]

theorem create_empty_text_rejected_witness :
    taskFalsy (some "") = true ∧
    handleTodosRequest (fun _ => .ok ⟨"alice"⟩) (some "tok") (.create (some ""))
        [⟨1, "a", false, 10, "alice"⟩] 5 9 =
      ⟨⟨400, .errorJson "Task cannot be empty"⟩, [⟨1, "a", false, 10, "alice"⟩], false⟩ :=
  ⟨rfl,
   create_empty_text_rejected (fun _ => .ok ⟨"alice"⟩) "tok" ⟨"alice"⟩
     [⟨1, "a", false, 10, "alice"⟩] 5 9 (some "") rfl rfl⟩

/-- C5: a request to the protected router with no credential answers 401,
and one whose credential fails verification answers 403; in both cases the
table is untouched and the record store is never reached. -/
theorem auth_gate (verify : String → VerifyResult) (req : TodosRequest)
    (store : Store) (newId now : Nat) :
    (handleTodosRequest verify none req store newId now =
      ⟨⟨401, .empty⟩, store, false⟩) ∧
    (∀ token msg, verify token = .error msg →
      handleTodosRequest verify (some token) req store newId now =
        ⟨⟨403, .empty⟩, store, false⟩) := by
  constructor
  · rfl
  · intro token msg hv
    simp [handleTodosRequest, authenticateToken, hv]

theorem auth_gate_witness :
    (fun _ => VerifyResult.error "bad sig") "tok" = VerifyResult.error "bad sig" ∧
    (handleTodosRequest (fun _ => .error "bad sig") none .list
        [⟨1, "a", false, 10, "alice"⟩] 5 9 =
      ⟨⟨401, .empty⟩, [⟨1, "a", false, 10, "alice"⟩], false⟩) ∧
    (handleTodosRequest (fun _ => .error "bad sig") (some "tok") .list
        [⟨1, "a", false, 10, "alice"⟩] 5 9 =
      ⟨⟨403, .empty⟩, [⟨1, "a", false, 10, "alice"⟩], false⟩) :=
  ⟨rfl,
   (auth_gate (fun _ => .error "bad sig") .list [⟨1, "a", false, 10, "alice"⟩] 5 9).1,
   (auth_gate (fun _ => .error "bad sig") .list [⟨1, "a", false, 10, "alice"⟩] 5 9).2
     "tok" "bad sig" rfl⟩

/-- C3: without a resolvable session the proxy answers 401 `Unauthorized`
and issues no fetch to the backend; and every fetch the proxy does issue
carries an `Authorization: Bearer` header built from the resolved session's
access token. -/
theorem proxy_session_gate (base : String) (session : Session) (method : String)
    (slug : List String) (ct : Option String) (reqBody : String)
    (fetchOracle : FetchRequest → FetchOutcome) :
    (proxyHandler (some base) none method slug ct reqBody fetchOracle =
      ⟨⟨401, .errorJson "Unauthorized"⟩, []⟩) ∧
    ((proxyHandler (some base) (some session) method slug ct reqBody
        fetchOracle).calls =
      [proxyFetchRequest base session method slug ct reqBody]) ∧
    ((proxyFetchRequest base session method slug ct reqBody).authHeader =
      "Bearer " ++ session.access_token) :=
  ⟨rfl, proxyHandler_calls base session method slug ct reqBody fetchOracle, rfl⟩

/-- C6 counterexample: with a valid session and a reachable backend that
answers 400 with body `oops`, the proxy keeps the status but replaces the
body with the `Backend Error` envelope — the pass-through is not verbatim
for a non-2xx backend response. -/
theorem proxy_passthrough_cx :
    (proxyHandler (some "https://backend") (some ⟨"tok"⟩) "POST" ["todos"]
        (some "application/json") "x" (fun _ => .success 400 "oops")).response =
      ⟨400, .backendError "Backend Error: Bad Request" "oops"⟩ ∧
    ProxyBody.backendError "Backend Error: Bad Request" "oops" ≠ ProxyBody.json "oops" := by
  exact ⟨rfl, by decide⟩

/-- C6 (amended): with a valid session and a reachable backend, the proxy
always forwards the backend's status code; the body is forwarded verbatim
for a 2xx response other than 204, a 204 is forwarded with no body, and a
non-2xx body is wrapped in the envelope
`error: Backend Error <statusText>, details: <backend body>`. -/
theorem proxy_passthrough (base : String) (session : Session) (method : String)
    (slug : List String) (ct : Option String) (reqBody : String)
    (fetchOracle : FetchRequest → FetchOutcome) (status : Nat) (bbody : String)
    (hfetch : fetchOracle (proxyFetchRequest base session method slug ct reqBody) =
      .success status bbody) :
    (proxyHandler (some base) (some session) method slug ct reqBody
        fetchOracle).response.status = status ∧
    (responseOk status = true → status ≠ 204 →
      (proxyHandler (some base) (some session) method slug ct reqBody
        fetchOracle).response.body = .json bbody) ∧
    (status = 204 →
      (proxyHandler (some base) (some session) method slug ct reqBody
        fetchOracle).response.body = .empty) ∧
    (responseOk status = false →
      (proxyHandler (some base) (some session) method slug ct reqBody
        fetchOracle).response.body =
        .backendError ("Backend Error: " ++ statusText status) bbody) := by
  by_cases hok : responseOk status = true
  · by_cases h204 : status = 204
    · subst h204
      refine ⟨?_, ?_, ?_, ?_⟩ <;> simp [proxyHandler, hfetch, hok]
    · refine ⟨?_, ?_, ?_, ?_⟩ <;> simp [proxyHandler, hfetch, hok, h204]
  · have h204 : status ≠ 204 := by
      intro h
      subst h
      exact hok rfl
    refine ⟨?_, ?_, ?_, ?_⟩ <;> simp [proxyHandler, hfetch, hok, h204]

theorem proxy_passthrough_witness :
    (fun _ => FetchOutcome.success 200 "[]")
        (proxyFetchRequest "https://backend" ⟨"tok"⟩ "GET" ["todos"] none "") =
      .success 200 "[]" ∧
    (proxyHandler (some "https://backend") (some ⟨"tok"⟩) "GET" ["todos"] none ""
        (fun _ => .success 200 "[]")).response.status = 200 ∧
    (proxyHandler (some "https://backend") (some ⟨"tok"⟩) "GET" ["todos"] none ""
        (fun _ => .success 200 "[]")).response.body = .json "[]" :=
  ⟨rfl,
   (proxy_passthrough "https://backend" ⟨"tok"⟩ "GET" ["todos"] none ""
     (fun _ => .success 200 "[]") 200 "[]" rfl).1,
   (proxy_passthrough "https://backend" ⟨"tok"⟩ "GET" ["todos"] none ""
     (fun _ => .success 200 "[]") 200 "[]" rfl).2.1 rfl (by decide)⟩

/-- C7: when the transport-level fetch to the backend throws, the proxy
answers the designated `ProxyRequestFailed` response — status 500 with the
message `Proxy request failed` — and no backend status is forwarded. -/
theorem proxy_transport_failure (base : String) (session : Session) (method : String)
    (slug : List String) (ct : Option String) (reqBody : String)
    (fetchOracle : FetchRequest → FetchOutcome)
    (hfetch : fetchOracle (proxyFetchRequest base session method slug ct reqBody) =
      .failure) :
    (proxyHandler (some base) (some session) method slug ct reqBody
        fetchOracle).response = proxyRequestFailedResponse ∧
    proxyRequestFailedResponse = ⟨500, .errorJson "Proxy request failed"⟩ := by
  exact ⟨by simp [proxyHandler, hfetch], rfl⟩

theorem proxy_transport_failure_witness :
    (fun _ => FetchOutcome.failure)
        (proxyFetchRequest "https://backend" ⟨"tok"⟩ "GET" ["todos"] none "") =
      .failure ∧
    (proxyHandler (some "https://backend") (some ⟨"tok"⟩) "GET" ["todos"] none ""
        (fun _ => .failure)).response = proxyRequestFailedResponse ∧
    proxyRequestFailedResponse = ⟨500, .errorJson "Proxy request failed"⟩ :=
  ⟨rfl,
   (proxy_transport_failure "https://backend" ⟨"tok"⟩ "GET" ["todos"] none ""
     (fun _ => .failure) rfl).1,
   (proxy_transport_failure "https://backend" ⟨"tok"⟩ "GET" ["todos"] none ""
     (fun _ => .failure) rfl).2⟩

/-- C8: the callback on a GET request has exactly two outcomes.  A missing
code or a failed exchange redirects to the error page with a descriptive
message and sets no cookie; a successful exchange writes the session
cookies with the forced attributes (`path=/`, `SameSite=None`, `Secure`)
and redirects to the originally requested path.  At most one exchange is
attempted per request (no retry). -/
theorem callback_two_outcome_machine (code : Option String) (next : Option String)
    (siteUrl : String) (exchange : String → ExchangeOutcome) :
    (code = none →
      callbackHandler "GET" code next siteUrl exchange =
        ⟨307, none,
         some (siteUrl ++ "/auth-error?message=Authorization+code+missing"), [], 0⟩) ∧
    (∀ c msg, code = some c → exchange c = .error msg →
      callbackHandler "GET" code next siteUrl exchange =
        ⟨307, none,
         some (siteUrl ++ "/auth-error?message=Could+not+authenticate+user"), [], 1⟩) ∧
    (∀ c pairs, code = some c → exchange c = .ok pairs →
      callbackHandler "GET" code next siteUrl exchange =
        ⟨307, none, some (siteUrl ++ callbackRedirectPath next),
         pairs.map (fun p => forcedCookie p.1 p.2), 1⟩ ∧
      ∀ ck ∈ (callbackHandler "GET" code next siteUrl exchange).cookiesSet,
        ck.path = "/" ∧ ck.sameSite = "none" ∧ ck.secure = true) ∧
    (callbackHandler "GET" code next siteUrl exchange).exchangeAttempts ≤ 1 := by
  refine ⟨?_, ?_, ?_, ?_⟩
  · rintro rfl
    rfl
  · rintro c msg rfl hex
    simp [callbackHandler, hex]
  · rintro c pairs rfl hex
    refine ⟨by simp [callbackHandler, hex], ?_⟩
    intro ck hck
    simp only [callbackHandler, hex] at hck
    rw [if_neg (by simp)] at hck
    rcases List.mem_map.mp hck with ⟨p, -, rfl⟩
    exact ⟨rfl, rfl, rfl⟩
  · cases code with
    | none => simp [callbackHandler]
    | some c => cases hex : exchange c <;> simp [callbackHandler, hex]

theorem callback_two_outcome_machine_witness :
    (callbackHandler "GET" none (some "/app") "https://site"
        (fun _ => .ok [("sb-auth", "v")]) =
      ⟨307, none,
       some ("https://site" ++ "/auth-error?message=Authorization+code+missing"), [], 0⟩) ∧
    (callbackHandler "GET" (some "authcode") (some "/app") "https://site"
        (fun _ => .error "bad code") =
      ⟨307, none,
       some ("https://site" ++ "/auth-error?message=Could+not+authenticate+user"), [], 1⟩) ∧
    (callbackHandler "GET" (some "authcode") (some "/app") "https://site"
        (fun _ => .ok [("sb-auth", "v")]) =
      ⟨307, none, some ("https://site" ++ callbackRedirectPath (some "/app")),
       [("sb-auth", "v")].map (fun p => forcedCookie p.1 p.2), 1⟩) ∧
    (callbackHandler "GET" (some "authcode") (some "/app") "https://site"
        (fun _ => .ok [("sb-auth", "v")])).exchangeAttempts ≤ 1 :=
  ⟨(callback_two_outcome_machine none (some "/app") "https://site"
      (fun _ => .ok [("sb-auth", "v")])).1 rfl,
   (callback_two_outcome_machine (some "authcode") (some "/app") "https://site"
      (fun _ => .error "bad code")).2.1 "authcode" "bad code" rfl rfl,
   ((callback_two_outcome_machine (some "authcode") (some "/app") "https://site"
      (fun _ => .ok [("sb-auth", "v")])).2.2.1 "authcode" [("sb-auth", "v")] rfl rfl).1,
   (callback_two_outcome_machine (some "authcode") (some "/app") "https://site"
      (fun _ => .ok [("sb-auth", "v")])).2.2.2⟩

/-- C9: the list operation returns its rows sorted newest first (descending
`created_at`), and a task created immediately before a list call — its
timestamp strictly above every existing row of that owner — appears first
in the owner's subsequent list. -/
theorem listTasks_newest_first (verify : String → VerifyResult) (token : String)
    (claims : Claims) (store : Store) (newId now : Nat) (s : String)
    (hv : verify token = .ok claims) (hs : s ≠ "")
    (hfresh : ∀ u ∈ store, u.user_id = claims.sub → u.created_at < now) :
    sortedDesc (listTodos ((handleTodosRequest verify (some token) (.create (some s))
        store newId now).store) claims.sub) ∧
    (listTodos ((handleTodosRequest verify (some token) (.create (some s))
        store newId now).store) claims.sub).head? =
      some ⟨newId, s, false, now, claims.sub⟩ := by
  constructor
  · exact sortDesc_sorted _
  · have hstore : (handleTodosRequest verify (some token) (.create (some s))
        store newId now).store = store ++ [⟨newId, s, false, now, claims.sub⟩] := by
      simp [handleTodosRequest, authenticateToken, hv, taskFalsy, hs]
    rw [hstore]
    have hfilter : (store ++ [(⟨newId, s, false, now, claims.sub⟩ : Todo)]).filter
        (fun u => u.user_id = claims.sub) =
        store.filter (fun u => u.user_id = claims.sub) ++
          [(⟨newId, s, false, now, claims.sub⟩ : Todo)] := by
      simp [List.filter_append, List.filter_cons]
    rw [listTodos, hfilter]
    obtain ⟨x, hx, hmem, hmax⟩ :=
      sortDesc_head_max (l := store.filter (fun u => u.user_id = claims.sub) ++
        [(⟨newId, s, false, now, claims.sub⟩ : Todo)]) (by simp)
    rw [hx]
    rcases List.mem_append.mp hmem with hmem | hmem
    · obtain ⟨hin, hpred⟩ := List.mem_filter.mp hmem
      have hlt : x.created_at < now := hfresh x hin (by simpa using hpred)
      have hge : now ≤ x.created_at := hmax ⟨newId, s, false, now, claims.sub⟩ (by simp)
      exact absurd hlt (not_lt.mpr hge)
    · rw [List.mem_singleton.mp hmem]

theorem listTasks_newest_first_witness :
    ("buy milk" ≠ "" ∧
      ∀ u ∈ ([⟨1, "a", false, 10, "alice"⟩, ⟨2, "b", false, 20, "bob"⟩] : Store),
        u.user_id = "alice" → u.created_at < 30) ∧
    sortedDesc (listTodos ((handleTodosRequest (fun _ => .ok ⟨"alice"⟩) (some "tok")
        (.create (some "buy milk"))
        [⟨1, "a", false, 10, "alice"⟩, ⟨2, "b", false, 20, "bob"⟩] 3 30).store)
      "alice") ∧
    (listTodos ((handleTodosRequest (fun _ => .ok ⟨"alice"⟩) (some "tok")
        (.create (some "buy milk"))
        [⟨1, "a", false, 10, "alice"⟩, ⟨2, "b", false, 20, "bob"⟩] 3 30).store)
      "alice").head? = some ⟨3, "buy milk", false, 30, "alice"⟩ :=
  ⟨⟨by decide, by decide⟩,
   (listTasks_newest_first (fun _ => .ok ⟨"alice"⟩) "tok" ⟨"alice"⟩
     [⟨1, "a", false, 10, "alice"⟩, ⟨2, "b", false, 20, "bob"⟩] 3 30 "buy milk"
     rfl (by decide) (by decide)).1,
   (listTasks_newest_first (fun _ => .ok ⟨"alice"⟩) "tok" ⟨"alice"⟩
     [⟨1, "a", false, 10, "alice"⟩, ⟨2, "b", false, 20, "bob"⟩] 3 30 "buy milk"
     rfl (by decide) (by decide)).2⟩

/-- C10: a request to the callback whose method is not GET answers 405 with
an `Allow: GET` header, attempts no code exchange, sets no cookie, and
issues no redirect. -/
theorem callback_method_guard (method : String) (code : Option String)
    (next : Option String) (siteUrl : String) (exchange : String → ExchangeOutcome)
    (h : method ≠ "GET") :
    callbackHandler method code next siteUrl exchange =
      ⟨405, some "GET", none, [], 0⟩ := by
  simp [callbackHandler, h]

theorem callback_method_guard_witness :
    ("POST" ≠ "GET") ∧
    callbackHandler "POST" (some "authcode") (some "/app") "https://site"
        (fun _ => .ok [("sb-auth", "v")]) =
      ⟨405, some "GET", none, [], 0⟩ :=
  ⟨by decide,
   callback_method_guard "POST" (some "authcode") (some "/app") "https://site"
     (fun _ => .ok [("sb-auth", "v")]) (by decide)⟩

end SaasApp
